import Mathlib

/-!
Shallow embedding of the Dyn Managed DNS challenge provider
(`providers/dns/dyn/dyn.go`).

The provider state (`DNSProvider`) is threaded explicitly.  The HTTP
client and the two external acme collaborators (`DNS01Record`,
`FindZoneByFqdn`) are modelled as oracle functions collected in a
context `Ctx`.  Each operation returns its result, the updated provider
state, and the list of HTTP requests it issued, in order.
-/

namespace Dyn

/-- Constant `dynBaseURL` from the source: fixed base URL of the Dyn REST API. -/
def dynBaseURL : String := "https://api.dynect.net/REST"

/-- URL construction used throughout the source: `baseURL + "/" + resource`. -/
def mkURL (resource : String) : String := dynBaseURL ++ "/" ++ resource

/-- The raw `data` field of a `dynResponse` envelope.  In the source it is
`json.RawMessage`; the only call that interprets it is `login`, which
unmarshals it as a `{token, version}` session object (which may fail). -/
inductive RawData where
  | undecodable : RawData
  | sessionData (token : String) (version : String) : RawData
  deriving DecidableEq

/-- The `dynResponse` envelope from the source: status is one of
`success`, `failure` or `incomplete`; `messages` models the raw
`msgs` JSON. -/
structure dynResponse where
  status : String
  data : RawData
  jobID : Int
  messages : String
  deriving DecidableEq

/-- Body of an HTTP response as seen by the JSON decoder: either it fails
to decode as a `dynResponse` envelope, or it decodes to one. -/
inductive HttpBody where
  | invalid : HttpBody
  | envelope (e : dynResponse) : HttpBody
  deriving DecidableEq

/-- Outcome of `client.Do`: a transport error, or a response with an HTTP
status code and a body. -/
inductive HttpOutcome where
  | transportErr (msg : String) : HttpOutcome
  | response (statusCode : Nat) (body : HttpBody) : HttpOutcome
  deriving DecidableEq

/-- Request payloads serialized by `json.Marshal` in the source.  `empty`
is the `nil` body of the raw DELETE requests; `creds` is login's
credentials struct; `txtRecord` is Present's record-creation map (ttl
already converted to a string by `strconv.Itoa`); `publishNote` is the
publish struct `{publish, notes}`. -/
inductive Payload where
  | empty : Payload
  | creds (customer user pass : String) : Payload
  | txtRecord (txtdata ttl : String) : Payload
  | publishNote (publish : Bool) (notes : String) : Payload
  deriving DecidableEq

/-- An outgoing HTTP request: method, full URL, marshalled payload, and
the `Auth-Token` header (`none` when the header is not set).  The
`Content-Type: application/json` header is set on every request in the
source and is not modelled separately. -/
structure HttpRequest where
  method : String
  url : String
  payload : Payload
  authToken : Option String
  deriving DecidableEq

/-- The `DNSProvider` struct from the source (the `*http.Client` field is
modelled by the oracle context instead). -/
structure DNSProvider where
  customerName : String
  userName : String
  password : String
  token : String
  deriving DecidableEq

/-- Error taxonomy: one constructor per distinct error-producing site in
the source, carrying the data interpolated into the message there. -/
inductive Err where
  | missingCredentials : Err
  | transport (msg : String) : Err
  | decodeError : Err
  | serverError (code : Nat) : Err
  | clientError (code : Nat) (msgs : String) : Err
  | unsupported307 : Err
  | apiFailure (msgs : String) : Err
  | sessionDeleteFailed (code : Nat) : Err
  | txtDeleteFailed (code : Nat) : Err
  | zoneError (msg : String) : Err
  deriving DecidableEq

/-- Oracle context: the network (`client.Do`) and the two external acme
collaborators.  `dns01` maps (domain, keyAuth) to (fqdn, value, ttl);
`findZone` maps an fqdn to its authoritative zone or an error. -/
structure Ctx where
  net : HttpRequest → HttpOutcome
  dns01 : String → String → String × String × Int
  findZone : String → Except String String

/-- The request built by `sendRequest` (source lines 78-85): the
`Auth-Token` header is attached iff the stored token is non-empty. -/
def mkRequest (d : DNSProvider) (method resource : String) (payload : Payload) : HttpRequest :=
  { method := method
    url := mkURL resource
    payload := payload
    authToken := if 0 < d.token.length then some d.token else none }

/-- Function `sendRequest` from the source: issues the request and classifies the
outcome in source order — transport error; HTTP status ≥ 500 (body never
decoded); envelope decode failure; HTTP status ≥ 400; HTTP status 307;
envelope status `failure`; otherwise success. -/
def sendRequest (ctx : Ctx) (d : DNSProvider) (method resource : String) (payload : Payload) :
    Except Err dynResponse × List HttpRequest :=
  let req := mkRequest d method resource payload
  let result : Except Err dynResponse :=
    match ctx.net req with
    | .transportErr m => .error (.transport m)
    | .response code body =>
      if 500 ≤ code then
        .error (.serverError code)
      else
        match body with
        | .invalid => .error .decodeError
        | .envelope e =>
          if 400 ≤ code then
            .error (.clientError code e.messages)
          else if code == 307 then
            .error .unsupported307
          else if e.status == "failure" then
            .error (.apiFailure e.messages)
          else
            .ok e
  (result, [req])

/-- Function `login` from the source: POST the credentials to `Session`, then
unmarshal the envelope's `data` as a session and store its token. -/
def login (ctx : Ctx) (d : DNSProvider) :
    Except Err Unit × DNSProvider × List HttpRequest :=
  match sendRequest ctx d "POST" "Session" (.creds d.customerName d.userName d.password) with
  | (.error e, reqs) => (.error e, d, reqs)
  | (.ok dynRes, reqs) =>
    match dynRes.data with
    | .undecodable => (.error .decodeError, d, reqs)
    | .sessionData t _ => (.ok (), { d with token := t }, reqs)

/-- The raw session DELETE request issued by `logout` (source lines
156-162): the `Auth-Token` header is set unconditionally. -/
def sessionDeleteRequest (token : String) : HttpRequest :=
  { method := "DELETE", url := mkURL "Session", payload := .empty, authToken := some token }

/-- Function `logout` from the source: no-op success when no token is held;
otherwise a raw DELETE of `Session` (not via `sendRequest`), requiring
exactly HTTP 200 before the token is cleared. -/
def logout (ctx : Ctx) (d : DNSProvider) :
    Except Err Unit × DNSProvider × List HttpRequest :=
  if d.token.length == 0 then
    (.ok (), d, [])
  else
    let req := sessionDeleteRequest d.token
    match ctx.net req with
    | .transportErr m => (.error (.transport m), d, [req])
    | .response code _ =>
      if code != 200 then
        (.error (.sessionDeleteFailed code), d, [req])
      else
        (.ok (), { d with token := "" }, [req])

/-- Function `publish` from the source: PUT `Zone/{zone}/` with
`{publish: true, notes}` through `sendRequest`. -/
def publish (ctx : Ctx) (d : DNSProvider) (zone notes : String) :
    Except Err Unit × List HttpRequest :=
  match sendRequest ctx d "PUT" ("Zone/" ++ zone ++ "/") (.publishNote true notes) with
  | (.error e, reqs) => (.error e, reqs)
  | (.ok _, reqs) => (.ok (), reqs)

/-- Function `NewDNSProviderCredentials` from the source: fails when any credential
string is empty, otherwise builds the provider (token is the zero value,
the empty string). -/
def NewDNSProviderCredentials (customerName userName password : String) :
    Except Err DNSProvider :=
  if customerName == "" || userName == "" || password == "" then
    .error .missingCredentials
  else
    .ok { customerName := customerName, userName := userName, password := password, token := "" }

/-- The creation note used by `Present`. -/
def presentNote : String := "Added TXT record for ACME dns-01 challenge using lego client"

/-- The removal note used by `CleanUp`. -/
def cleanUpNote : String := "Removed TXT record for ACME dns-01 challenge using lego client"

/-- Function `Present` from the source: derive the record, resolve the zone, then
login → POST `TXTRecord/{zone}/{fqdn}/` with the record body → publish →
logout, returning at the first error. -/
def Present (ctx : Ctx) (d : DNSProvider) (domain _token keyAuth : String) :
    Except Err Unit × DNSProvider × List HttpRequest :=
  match ctx.dns01 domain keyAuth with
  | (fqdn, value, ttl) =>
    match ctx.findZone fqdn with
    | .error m => (.error (.zoneError m), d, [])
    | .ok authZone =>
      match login ctx d with
      | (.error e, d1, t1) => (.error e, d1, t1)
      | (.ok _, d1, t1) =>
        match sendRequest ctx d1 "POST" ("TXTRecord/" ++ authZone ++ "/" ++ fqdn ++ "/")
            (.txtRecord value (toString ttl)) with
        | (.error e, t2) => (.error e, d1, t1 ++ t2)
        | (.ok _, t2) =>
          match publish ctx d1 authZone presentNote with
          | (.error e, t3) => (.error e, d1, t1 ++ t2 ++ t3)
          | (.ok _, t3) =>
            match logout ctx d1 with
            | (r4, d2, t4) => (r4, d2, t1 ++ t2 ++ t3 ++ t4)

/-- The raw TXT-record DELETE request issued by `CleanUp` (source lines
244-250): built directly, not via `sendRequest`; the `Auth-Token` header
is set unconditionally. -/
def txtDeleteRequest (token resource : String) : HttpRequest :=
  { method := "DELETE", url := mkURL resource, payload := .empty, authToken := some token }

/-- Function `CleanUp` from the source: derive the fqdn, resolve the zone, then
login → raw DELETE of `TXTRecord/{zone}/{fqdn}/` requiring exactly HTTP
200 (the body is closed unread; the envelope is never inspected) →
publish → logout, returning at the first error. -/
def CleanUp (ctx : Ctx) (d : DNSProvider) (domain _token keyAuth : String) :
    Except Err Unit × DNSProvider × List HttpRequest :=
  match ctx.dns01 domain keyAuth with
  | (fqdn, _, _) =>
    match ctx.findZone fqdn with
    | .error m => (.error (.zoneError m), d, [])
    | .ok authZone =>
      match login ctx d with
      | (.error e, d1, t1) => (.error e, d1, t1)
      | (.ok _, d1, t1) =>
        let req := txtDeleteRequest d1.token ("TXTRecord/" ++ authZone ++ "/" ++ fqdn ++ "/")
        match ctx.net req with
        | .transportErr m => (.error (.transport m), d1, t1 ++ [req])
        | .response code _ =>
          if code != 200 then
            (.error (.txtDeleteFailed code), d1, t1 ++ [req])
          else
            match publish ctx d1 authZone cleanUpNote with
            | (.error e, t3) => (.error e, d1, t1 ++ [req] ++ t3)
            | (.ok _, t3) =>
              match logout ctx d1 with
              | (r4, d2, t4) => (r4, d2, t1 ++ [req] ++ t3 ++ t4)

/-! ### Helper lemmas about the individual steps -/

/-- A non-empty string has positive length. -/
lemma str_pos_iff (s : String) : 0 < s.length ↔ s ≠ "" := by
  cases s with
  | mk l =>
    constructor
    · intro h he
      rw [he] at h
      simp at h
    · intro h
      rcases l with _ | ⟨c, cs⟩
      · exact absurd rfl h
      · simp [String.length]

lemma str_beq_zero (s : String) (h : s ≠ "") : (s.length == 0) = false := by
  have h2 := (str_pos_iff s).mpr h
  simp only [beq_eq_false_iff_ne]
  omega

/-- Lemma: `sendRequest` always issues exactly the one request it builds. -/
lemma sendRequest_snd (ctx : Ctx) (d : DNSProvider) (method resource : String)
    (payload : Payload) :
    (sendRequest ctx d method resource payload).2 = [mkRequest d method resource payload] := rfl

/-- Lemma: `sendRequest` on an HTTP 200 response whose envelope status is not
`failure` succeeds with the envelope. -/
lemma sendRequest_ok (ctx : Ctx) (d : DNSProvider) (method resource : String)
    (payload : Payload) (e : dynResponse)
    (hnet : ctx.net (mkRequest d method resource payload) = .response 200 (.envelope e))
    (hs : e.status ≠ "failure") :
    sendRequest ctx d method resource payload = (.ok e, [mkRequest d method resource payload]) := by
  simp only [sendRequest, hnet]
  simp [hs]

/-- Lemma: `login` on a successful response stores the token from the session data. -/
lemma login_ok (ctx : Ctx) (d : DNSProvider) (e : dynResponse) (tk v : String)
    (hnet : ctx.net (mkRequest d "POST" "Session" (.creds d.customerName d.userName d.password)) =
      .response 200 (.envelope e))
    (hs : e.status ≠ "failure")
    (hd : e.data = .sessionData tk v) :
    login ctx d = (.ok (), { d with token := tk },
      [mkRequest d "POST" "Session" (.creds d.customerName d.userName d.password)]) := by
  simp only [login, sendRequest_ok ctx d "POST" "Session" _ e hnet hs, hd]

/-- Lemma: `publish` on a successful response returns unit. -/
lemma publish_ok (ctx : Ctx) (d : DNSProvider) (zone notes : String) (e : dynResponse)
    (hnet : ctx.net (mkRequest d "PUT" ("Zone/" ++ zone ++ "/") (.publishNote true notes)) =
      .response 200 (.envelope e))
    (hs : e.status ≠ "failure") :
    publish ctx d zone notes =
      (.ok (), [mkRequest d "PUT" ("Zone/" ++ zone ++ "/") (.publishNote true notes)]) := by
  simp only [publish, sendRequest_ok ctx d "PUT" _ _ e hnet hs]

/-- Lemma: `logout` with a held token and an HTTP 200 delete clears the token. -/
lemma logout_ok (ctx : Ctx) (d : DNSProvider) (b : HttpBody)
    (htok : d.token ≠ "")
    (hnet : ctx.net (sessionDeleteRequest d.token) = .response 200 b) :
    logout ctx d = (.ok (), { d with token := "" }, [sessionDeleteRequest d.token]) := by
  simp only [logout, str_beq_zero d.token htok, hnet]
  simp

/-- A context whose network returns the same outcome for every request
(used to evaluate single-step behavior on concrete inputs). -/
def constCtx (o : HttpOutcome) : Ctx :=
  { net := fun _ => o
    dns01 := fun _ _ => ("", "", 0)
    findZone := fun _ => .error "" }

/-! ### Claim theorems -/

/-- C1: when zone resolution and every network request succeed, `Present`
issues exactly the four requests login (POST `Session`), create (POST
`TXTRecord/{zone}/{fqdn}/` whose body carries the derived record value
unchanged and the ttl rendered as a decimal string), publish (PUT
`Zone/{zone}/` with `publish := true`), and logout (DELETE `Session`),
in this order, each exactly once, and returns success. -/
theorem C1_present_success_sequence (ctx : Ctx) (d : DNSProvider)
    (domain tok keyAuth fqdn value : String) (ttl : Int) (zone tk v : String)
    (e1 e2 e3 : dynResponse) (b4 : HttpBody)
    (hdns : ctx.dns01 domain keyAuth = (fqdn, value, ttl))
    (hzone : ctx.findZone fqdn = .ok zone)
    (hlogin : ctx.net (mkRequest d "POST" "Session" (.creds d.customerName d.userName d.password)) =
      .response 200 (.envelope e1))
    (he1s : e1.status ≠ "failure")
    (he1d : e1.data = .sessionData tk v)
    (htk : tk ≠ "")
    (hcreate : ctx.net (mkRequest { d with token := tk } "POST"
        ("TXTRecord/" ++ zone ++ "/" ++ fqdn ++ "/") (.txtRecord value (toString ttl))) =
      .response 200 (.envelope e2))
    (he2s : e2.status ≠ "failure")
    (hpub : ctx.net (mkRequest { d with token := tk } "PUT" ("Zone/" ++ zone ++ "/")
        (.publishNote true presentNote)) = .response 200 (.envelope e3))
    (he3s : e3.status ≠ "failure")
    (hlogout : ctx.net (sessionDeleteRequest tk) = .response 200 b4) :
    Present ctx d domain tok keyAuth =
      (.ok (), { d with token := "" },
       [mkRequest d "POST" "Session" (.creds d.customerName d.userName d.password),
        mkRequest { d with token := tk } "POST" ("TXTRecord/" ++ zone ++ "/" ++ fqdn ++ "/")
          (.txtRecord value (toString ttl)),
        mkRequest { d with token := tk } "PUT" ("Zone/" ++ zone ++ "/")
          (.publishNote true presentNote),
        sessionDeleteRequest tk]) := by
  have h1 := login_ok ctx d e1 tk v hlogin he1s he1d
  have h2 := sendRequest_ok ctx { d with token := tk } "POST"
    ("TXTRecord/" ++ zone ++ "/" ++ fqdn ++ "/") (.txtRecord value (toString ttl)) e2 hcreate he2s
  have h3 := publish_ok ctx { d with token := tk } zone presentNote e3 hpub he3s
  have h4 := logout_ok ctx { d with token := tk } b4 htk hlogout
  simp only [Present, hdns, hzone, h1, h2, h3, h4]
  simp

/-- C2: in both `Present` and `CleanUp`, if the record-mutation step
(creation via `sendRequest`, or the raw TXT-record DELETE) fails after a
successful login, the operation returns that first error unchanged and
the request trace stops at the failing request: neither the publish
request nor the logout request is ever issued. -/
theorem C2_mutation_failure_stops (ctx : Ctx) (d : DNSProvider)
    (domain tok keyAuth fqdn value : String) (ttl : Int) (zone : String)
    (d1 : DNSProvider) (t1 : List HttpRequest)
    (hdns : ctx.dns01 domain keyAuth = (fqdn, value, ttl))
    (hzone : ctx.findZone fqdn = .ok zone)
    (hlogin : login ctx d = (.ok (), d1, t1)) :
    (∀ (e : Err) (t2 : List HttpRequest),
      sendRequest ctx d1 "POST" ("TXTRecord/" ++ zone ++ "/" ++ fqdn ++ "/")
        (.txtRecord value (toString ttl)) = (.error e, t2) →
      Present ctx d domain tok keyAuth = (.error e, d1, t1 ++ t2))
    ∧
    (∀ m : String,
      ctx.net (txtDeleteRequest d1.token ("TXTRecord/" ++ zone ++ "/" ++ fqdn ++ "/")) =
        .transportErr m →
      CleanUp ctx d domain tok keyAuth = (.error (.transport m), d1,
        t1 ++ [txtDeleteRequest d1.token ("TXTRecord/" ++ zone ++ "/" ++ fqdn ++ "/")]))
    ∧
    (∀ (code : Nat) (body : HttpBody),
      ctx.net (txtDeleteRequest d1.token ("TXTRecord/" ++ zone ++ "/" ++ fqdn ++ "/")) =
        .response code body →
      code ≠ 200 →
      CleanUp ctx d domain tok keyAuth = (.error (.txtDeleteFailed code), d1,
        t1 ++ [txtDeleteRequest d1.token ("TXTRecord/" ++ zone ++ "/" ++ fqdn ++ "/")])) := by
  refine ⟨?_, ?_, ?_⟩
  · intro e t2 hcreate
    simp only [Present, hdns, hzone, hlogin, hcreate]
  · intro m hnet
    simp only [CleanUp, hdns, hzone, hlogin, hnet]
  · intro code body hnet hcode
    simp only [CleanUp, hdns, hzone, hlogin, hnet]
    simp [hcode]

/-- C3 counterexample: with token `"t"` held and the session DELETE
answered with HTTP 500, `logout` returns and the stored token is NOT
reset to the empty string, contradicting the claim that the token is
cleared whether the remote DELETE succeeded or failed. -/
theorem C3_counterexample_token_kept :
    (logout (constCtx (.response 500 .invalid)) ⟨"c", "u", "p", "t"⟩).2.1.token = "t" ∧
    (logout (constCtx (.response 500 .invalid)) ⟨"c", "u", "p", "t"⟩).1 =
      .error (.sessionDeleteFailed 500) := by
  constructor <;> rfl

/-- C3 amended: for a client holding a non-empty token, `logout` resets
the stored token to empty exactly when the remote DELETE returns HTTP
200; on any other status it returns a `sessionDeleteFailed` error and
keeps the token, and on a transport error it returns that error and
keeps the token. -/
theorem C3_logout_token_reset (ctx : Ctx) (d : DNSProvider) (htok : d.token ≠ "") :
    (∀ (code : Nat) (body : HttpBody),
      ctx.net (sessionDeleteRequest d.token) = .response code body →
      (code = 200 →
        logout ctx d = (.ok (), { d with token := "" }, [sessionDeleteRequest d.token])) ∧
      (code ≠ 200 →
        logout ctx d = (.error (.sessionDeleteFailed code), d, [sessionDeleteRequest d.token])))
    ∧
    (∀ m : String,
      ctx.net (sessionDeleteRequest d.token) = .transportErr m →
      logout ctx d = (.error (.transport m), d, [sessionDeleteRequest d.token])) := by
  constructor
  · intro code body hnet
    constructor
    · intro hc
      subst hc
      simp only [logout, str_beq_zero d.token htok, hnet]
      simp
    · intro hc
      simp only [logout, str_beq_zero d.token htok, hnet]
      simp [hc]
  · intro m hnet
    simp only [logout, str_beq_zero d.token htok, hnet]
    simp

/-- C3 witness: the amended behavior on concrete inputs — HTTP 200 clears
the token, HTTP 500 keeps it. -/
theorem C3_logout_token_reset_witness :
    logout (constCtx (.response 200 .invalid)) ⟨"c", "u", "p", "t"⟩ =
      (.ok (), ⟨"c", "u", "p", ""⟩, [sessionDeleteRequest "t"]) ∧
    logout (constCtx (.response 500 .invalid)) ⟨"c", "u", "p", "t"⟩ =
      (.error (.sessionDeleteFailed 500), ⟨"c", "u", "p", "t"⟩, [sessionDeleteRequest "t"]) :=
  ⟨((C3_logout_token_reset (constCtx (.response 200 .invalid)) ⟨"c", "u", "p", "t"⟩
      (by decide)).1 200 .invalid rfl).1 rfl,
   ((C3_logout_token_reset (constCtx (.response 500 .invalid)) ⟨"c", "u", "p", "t"⟩
      (by decide)).1 500 .invalid rfl).2 (by decide)⟩

/-- Concrete context for exercising `CleanUp`: login and publish succeed,
the TXT-record DELETE is answered HTTP 200 with an envelope whose status
is `failure`, and the session DELETE is answered HTTP 200. -/
def ctx4 : Ctx :=
  { net := fun req =>
      if req.method == "DELETE" &&
          req.url == mkURL "TXTRecord/example.com/_acme-challenge.example.com/" then
        .response 200 (.envelope ⟨"failure", .undecodable, 0, "target not found"⟩)
      else if req.method == "DELETE" then
        .response 200 .invalid
      else
        .response 200 (.envelope ⟨"success", .sessionData "tok123" "3.7", 0, ""⟩)
    dns01 := fun _ _ => ("_acme-challenge.example.com", "value", 120)
    findZone := fun _ => .ok "example.com" }

/-- C4 counterexample: with the TXT-record DELETE answered HTTP 200 and an
envelope whose status field is `failure`, `CleanUp` does NOT return an
`apiFailure` error: the delete step bypasses `sendRequest`, treats the
200 as success, and the operation continues through publish and logout
(four requests issued) to overall success. -/
theorem C4_counterexample_delete_bypasses :
    (CleanUp ctx4 ⟨"c", "u", "p", ""⟩ "example.com" "tok" "key").1 = Except.ok () ∧
    (CleanUp ctx4 ⟨"c", "u", "p", ""⟩ "example.com" "tok" "key").2.2.length = 4 := by
  constructor <;> rfl

/-- C4 amended: `CleanUp`'s TXT-record DELETE (like `logout`'s session
DELETE) is issued directly through the HTTP client, not through
`sendRequest`: the response is checked only for HTTP status exactly 200
and its body — including an envelope with status `failure` — is never
inspected, so on HTTP 200 the operation always proceeds to publish and
logout. -/
theorem C4_cleanup_delete_http_only (ctx : Ctx) (d : DNSProvider)
    (domain tok keyAuth fqdn value : String) (ttl : Int) (zone : String)
    (d1 : DNSProvider) (t1 : List HttpRequest) (body : HttpBody)
    (t3 : List HttpRequest) (r4 : Except Err Unit) (d2 : DNSProvider) (t4 : List HttpRequest)
    (hdns : ctx.dns01 domain keyAuth = (fqdn, value, ttl))
    (hzone : ctx.findZone fqdn = .ok zone)
    (hlogin : login ctx d = (.ok (), d1, t1))
    (hdel : ctx.net (txtDeleteRequest d1.token ("TXTRecord/" ++ zone ++ "/" ++ fqdn ++ "/")) =
      .response 200 body)
    (hpub : publish ctx d1 zone cleanUpNote = (.ok (), t3))
    (hlogout : logout ctx d1 = (r4, d2, t4)) :
    CleanUp ctx d domain tok keyAuth =
      (r4, d2, t1 ++ [txtDeleteRequest d1.token ("TXTRecord/" ++ zone ++ "/" ++ fqdn ++ "/")]
        ++ t3 ++ t4) := by
  simp only [CleanUp, hdns, hzone, hlogin, hdel, hpub, hlogout]
  simp

/-- C4 witness: the amended behavior exercised end to end on `ctx4`. -/
theorem C4_cleanup_delete_http_only_witness :
    CleanUp ctx4 ⟨"c", "u", "p", ""⟩ "example.com" "tok" "key" =
      (.ok (), ⟨"c", "u", "p", ""⟩,
       [⟨"POST", mkURL "Session", .creds "c" "u" "p", none⟩,
        txtDeleteRequest "tok123" "TXTRecord/example.com/_acme-challenge.example.com/",
        ⟨"PUT", mkURL "Zone/example.com/", .publishNote true cleanUpNote, some "tok123"⟩,
        sessionDeleteRequest "tok123"]) :=
  C4_cleanup_delete_http_only ctx4 ⟨"c", "u", "p", ""⟩ "example.com" "tok" "key"
    "_acme-challenge.example.com" "value" 120 "example.com"
    ⟨"c", "u", "p", "tok123"⟩ [⟨"POST", mkURL "Session", .creds "c" "u" "p", none⟩]
    (.envelope ⟨"failure", .undecodable, 0, "target not found"⟩)
    [⟨"PUT", mkURL "Zone/example.com/", .publishNote true cleanUpNote, some "tok123"⟩]
    (.ok ()) ⟨"c", "u", "p", ""⟩ [sessionDeleteRequest "tok123"]
    rfl rfl rfl rfl rfl rfl

/-- C5 counterexample: an HTTP 404 response whose envelope decodes with
status `failure` makes `sendRequest` return the status-code error
(`clientError`), not `apiFailure`: status-code classification takes
precedence over the envelope's status field. -/
theorem C5_counterexample_client_error_first :
    (sendRequest (constCtx (.response 404 (.envelope ⟨"failure", .undecodable, 0, "m"⟩)))
      ⟨"c", "u", "p", ""⟩ "GET" "r" .empty).1 = .error (.clientError 404 "m") ∧
    Err.clientError 404 "m" ≠ Err.apiFailure "m" := by
  exact ⟨rfl, by decide⟩

/-- C5 amended: for every response whose HTTP status is below 400 and not
307 (in particular any 2xx) and whose envelope decodes with status field
`failure`, `sendRequest` returns an `apiFailure` error carrying the
envelope's messages; responses with status ≥ 400 or = 307 are classified
by status code first. -/
theorem C5_api_failure_envelope (ctx : Ctx) (d : DNSProvider)
    (method resource : String) (payload : Payload) (code : Nat) (e : dynResponse)
    (hnet : ctx.net (mkRequest d method resource payload) = .response code (.envelope e))
    (hlt : code < 400) (h307 : code ≠ 307) (hs : e.status = "failure") :
    sendRequest ctx d method resource payload =
      (.error (.apiFailure e.messages), [mkRequest d method resource payload]) := by
  have h5 : ¬ 500 ≤ code := by omega
  have h4 : ¬ 400 ≤ code := by omega
  simp only [sendRequest, hnet]
  simp [h5, h4, h307, hs]

/-- C5 witness: an HTTP 200 response with a `failure` envelope yields
`apiFailure` with the envelope's messages. -/
theorem C5_api_failure_envelope_witness :
    sendRequest (constCtx (.response 200 (.envelope ⟨"failure", .undecodable, 0, "m"⟩)))
      ⟨"c", "u", "p", ""⟩ "GET" "r" .empty =
      (.error (.apiFailure "m"), [⟨"GET", mkURL "r", .empty, none⟩]) :=
  C5_api_failure_envelope (constCtx (.response 200 (.envelope ⟨"failure", .undecodable, 0, "m"⟩)))
    ⟨"c", "u", "p", ""⟩ "GET" "r" .empty 200 ⟨"failure", .undecodable, 0, "m"⟩
    rfl (by decide) (by decide) rfl

/-- C6: every HTTP response with status ≥ 500 makes `sendRequest` return a
`serverError` carrying the status code, for any body whatsoever (the
body is never decoded: the conclusion does not depend on it, and holds
in particular for an undecodable body). -/
theorem C6_server_error (ctx : Ctx) (d : DNSProvider)
    (method resource : String) (payload : Payload) (code : Nat) (body : HttpBody)
    (hnet : ctx.net (mkRequest d method resource payload) = .response code body)
    (h : 500 ≤ code) :
    sendRequest ctx d method resource payload =
      (.error (.serverError code), [mkRequest d method resource payload]) := by
  simp only [sendRequest, hnet]
  simp [h]

/-- C6 witness: HTTP 503 with a body that is not a decodable envelope
still yields `serverError 503`. -/
theorem C6_server_error_witness :
    sendRequest (constCtx (.response 503 .invalid)) ⟨"c", "u", "p", ""⟩ "GET" "r" .empty =
      (.error (.serverError 503), [⟨"GET", mkURL "r", .empty, none⟩]) :=
  C6_server_error (constCtx (.response 503 .invalid)) ⟨"c", "u", "p", ""⟩ "GET" "r" .empty
    503 .invalid rfl (by decide)

/-- C7 counterexample: an HTTP 307 response whose body is not a valid JSON
envelope makes `sendRequest` return the decode error, not the
unsupported-redirect error: the envelope is decoded before the 307 check,
so the claim's independence from body content fails. -/
theorem C7_counterexample_decode_first :
    (sendRequest (constCtx (.response 307 .invalid)) ⟨"c", "u", "p", ""⟩ "GET" "r" .empty).1 =
      .error .decodeError ∧
    Err.decodeError ≠ Err.unsupported307 := by
  exact ⟨rfl, by decide⟩

/-- C7 amended: for every HTTP 307 response whose body decodes as an
envelope, `sendRequest` returns the unsupported-redirect/async-job error,
regardless of the envelope's content; a body that fails to decode yields
the decode error instead. -/
theorem C7_unsupported_307 (ctx : Ctx) (d : DNSProvider)
    (method resource : String) (payload : Payload) (e : dynResponse)
    (hnet : ctx.net (mkRequest d method resource payload) = .response 307 (.envelope e)) :
    sendRequest ctx d method resource payload =
      (.error .unsupported307, [mkRequest d method resource payload]) := by
  simp only [sendRequest, hnet]
  simp

/-- C7 witness: HTTP 307 with a decodable envelope (even one whose status
is `failure`) yields the unsupported-redirect error. -/
theorem C7_unsupported_307_witness :
    sendRequest (constCtx (.response 307 (.envelope ⟨"failure", .undecodable, 0, "m"⟩)))
      ⟨"c", "u", "p", ""⟩ "GET" "r" .empty =
      (.error .unsupported307, [⟨"GET", mkURL "r", .empty, none⟩]) :=
  C7_unsupported_307 (constCtx (.response 307 (.envelope ⟨"failure", .undecodable, 0, "m"⟩)))
    ⟨"c", "u", "p", ""⟩ "GET" "r" .empty ⟨"failure", .undecodable, 0, "m"⟩ rfl

/-- C8: the request built by `sendRequest` carries the `Auth-Token` header
exactly when the stored token is non-empty (and then its value is the
stored token), and a successful `login` stores the token received in the
response data, so that every subsequent request from the post-login state
carries that token. -/
theorem C8_auth_token_header (ctx : Ctx) (d : DNSProvider) :
    (∀ (method resource : String) (payload : Payload),
      (sendRequest ctx d method resource payload).2 = [mkRequest d method resource payload] ∧
      ((mkRequest d method resource payload).authToken = some d.token ↔ d.token ≠ "") ∧
      (d.token = "" → (mkRequest d method resource payload).authToken = none))
    ∧
    (∀ (e : dynResponse) (tk v : String),
      ctx.net (mkRequest d "POST" "Session" (.creds d.customerName d.userName d.password)) =
        .response 200 (.envelope e) →
      e.status ≠ "failure" →
      e.data = .sessionData tk v →
      login ctx d = (.ok (), { d with token := tk },
        [mkRequest d "POST" "Session" (.creds d.customerName d.userName d.password)]) ∧
      (tk ≠ "" → ∀ (method resource : String) (payload : Payload),
        (mkRequest { d with token := tk } method resource payload).authToken = some tk)) := by
  constructor
  · intro method resource payload
    refine ⟨rfl, ?_, ?_⟩
    · by_cases hd : d.token = ""
      · have : ¬ 0 < d.token.length := by
          rw [hd]
          simp
        simp [mkRequest, this, hd]
      · have := (str_pos_iff d.token).mpr hd
        simp [mkRequest, this, hd]
    · intro he
      have : ¬ 0 < d.token.length := by
        rw [he]
        simp
      simp [mkRequest, this]
  · intro e tk v hnet hs hd
    refine ⟨login_ok ctx d e tk v hnet hs hd, ?_⟩
    intro htk method resource payload
    have := (str_pos_iff tk).mpr htk
    simp [mkRequest, this]

/-- C8 witness: with a stored token the header is attached with that
token, and a concrete successful login stores the received token. -/
theorem C8_auth_token_header_witness :
    (sendRequest ctx4 ⟨"c", "u", "p", "tok123"⟩ "GET" "r" .empty).2 =
      [mkRequest ⟨"c", "u", "p", "tok123"⟩ "GET" "r" .empty] ∧
    (mkRequest ⟨"c", "u", "p", "tok123"⟩ "GET" "r" .empty).authToken = some "tok123" ∧
    login ctx4 ⟨"c", "u", "p", ""⟩ = (.ok (), ⟨"c", "u", "p", "tok123"⟩,
      [mkRequest ⟨"c", "u", "p", ""⟩ "POST" "Session" (.creds "c" "u" "p")]) :=
  ⟨((C8_auth_token_header ctx4 ⟨"c", "u", "p", "tok123"⟩).1 "GET" "r" .empty).1,
   ((C8_auth_token_header ctx4 ⟨"c", "u", "p", "tok123"⟩).1 "GET" "r" .empty).2.1.mpr (by decide),
   ((C8_auth_token_header ctx4 ⟨"c", "u", "p", ""⟩).2 ⟨"success", .sessionData "tok123" "3.7", 0, ""⟩
     "tok123" "3.7" rfl (by decide) rfl).1⟩

/-- C9: construction fails with the missing-credentials error exactly when
at least one of the three credential strings is empty; otherwise it
returns a provider holding exactly those credentials and an empty token. -/
theorem C9_constructor_credentials (c u p : String) :
    (NewDNSProviderCredentials c u p = .error .missingCredentials ↔ (c = "" ∨ u = "" ∨ p = "")) ∧
    (c ≠ "" → u ≠ "" → p ≠ "" →
      NewDNSProviderCredentials c u p = .ok ⟨c, u, p, ""⟩) := by
  constructor
  · by_cases hc : c = "" <;> by_cases hu : u = "" <;> by_cases hp : p = "" <;>
      simp [NewDNSProviderCredentials, hc, hu, hp]
  · intro hc hu hp
    simp [NewDNSProviderCredentials, hc, hu, hp]

/-- C9 witness: one empty credential fails, all non-empty succeeds with
exactly those credentials and an empty token. -/
theorem C9_constructor_credentials_witness :
    NewDNSProviderCredentials "c" "" "p" = .error .missingCredentials ∧
    NewDNSProviderCredentials "c" "u" "p" = .ok ⟨"c", "u", "p", ""⟩ :=
  ⟨(C9_constructor_credentials "c" "" "p").1.mpr (Or.inr (Or.inl rfl)),
   (C9_constructor_credentials "c" "u" "p").2 (by decide) (by decide) (by decide)⟩

/-- C10: `logout` on a client holding no token performs no network call,
returns success, and leaves the state (hence the empty token) unchanged. -/
theorem C10_logout_noop (ctx : Ctx) (d : DNSProvider) (h : d.token = "") :
    logout ctx d = (.ok (), d, []) := by
  simp [logout, h]

/-- C10 witness: a fresh provider with empty token logs out as a no-op. -/
theorem C10_logout_noop_witness :
    logout (constCtx (.response 500 .invalid)) ⟨"c", "u", "p", ""⟩ =
      (.ok (), ⟨"c", "u", "p", ""⟩, []) :=
  C10_logout_noop (constCtx (.response 500 .invalid)) ⟨"c", "u", "p", ""⟩ rfl

/-- Concrete all-success context: every non-DELETE request is answered
HTTP 200 with a success envelope carrying session data, every DELETE is
answered HTTP 200. -/
def ctx1 : Ctx :=
  { net := fun req =>
      if req.method == "DELETE" then
        .response 200 .invalid
      else
        .response 200 (.envelope ⟨"success", .sessionData "tok123" "3.7", 0, ""⟩)
    dns01 := fun _ _ => ("_acme-challenge.example.com", "value", 120)
    findZone := fun _ => .ok "example.com" }

/-- C1 witness: on an all-success context, `Present` issues exactly
login, create (carrying the derived value and the ttl `120` as the
string `"120"`), publish, logout — in order — and succeeds. -/
theorem C1_present_success_sequence_witness :
    Present ctx1 ⟨"c", "u", "p", ""⟩ "example.com" "tok" "key" =
      (.ok (), ⟨"c", "u", "p", ""⟩,
       [⟨"POST", mkURL "Session", .creds "c" "u" "p", none⟩,
        ⟨"POST", mkURL "TXTRecord/example.com/_acme-challenge.example.com/",
          .txtRecord "value" "120", some "tok123"⟩,
        ⟨"PUT", mkURL "Zone/example.com/", .publishNote true presentNote, some "tok123"⟩,
        sessionDeleteRequest "tok123"]) :=
  C1_present_success_sequence ctx1 ⟨"c", "u", "p", ""⟩ "example.com" "tok" "key"
    "_acme-challenge.example.com" "value" 120 "example.com" "tok123" "3.7"
    ⟨"success", .sessionData "tok123" "3.7", 0, ""⟩
    ⟨"success", .sessionData "tok123" "3.7", 0, ""⟩
    ⟨"success", .sessionData "tok123" "3.7", 0, ""⟩
    .invalid
    rfl rfl rfl (by decide) rfl (by decide) rfl (by decide) rfl (by decide) rfl

/-- Context whose record mutations fail at the API level: login succeeds,
every other request is answered HTTP 200 with a `failure` envelope. -/
def ctx2 : Ctx :=
  { net := fun req =>
      if req.url == mkURL "Session" then
        .response 200 (.envelope ⟨"success", .sessionData "tk1" "v", 0, ""⟩)
      else
        .response 200 (.envelope ⟨"failure", .undecodable, 0, "bad"⟩)
    dns01 := fun _ _ => ("f.example.com", "val", 60)
    findZone := fun _ => .ok "example.com" }

/-- Context whose non-login requests fail at the transport level. -/
def ctx2t : Ctx :=
  { net := fun req =>
      if req.url == mkURL "Session" then
        .response 200 (.envelope ⟨"success", .sessionData "tk1" "v", 0, ""⟩)
      else
        .transportErr "conn refused"
    dns01 := fun _ _ => ("f.example.com", "val", 60)
    findZone := fun _ => .ok "example.com" }

/-- Context whose non-login requests are answered HTTP 404. -/
def ctx2n : Ctx :=
  { net := fun req =>
      if req.url == mkURL "Session" then
        .response 200 (.envelope ⟨"success", .sessionData "tk1" "v", 0, ""⟩)
      else
        .response 404 .invalid
    dns01 := fun _ _ => ("f.example.com", "val", 60)
    findZone := fun _ => .ok "example.com" }

/-- C2 witness: a failing create stops `Present` right after the create
request with the API error unchanged; a transport-failing or non-200
DELETE stops `CleanUp` right after the delete request, in each case with
no publish or logout request in the trace. -/
theorem C2_mutation_failure_stops_witness :
    Present ctx2 ⟨"c", "u", "p", ""⟩ "example.com" "tok" "key" =
      (.error (.apiFailure "bad"), ⟨"c", "u", "p", "tk1"⟩,
       [⟨"POST", mkURL "Session", .creds "c" "u" "p", none⟩,
        ⟨"POST", mkURL "TXTRecord/example.com/f.example.com/",
          .txtRecord "val" "60", some "tk1"⟩]) ∧
    CleanUp ctx2t ⟨"c", "u", "p", ""⟩ "example.com" "tok" "key" =
      (.error (.transport "conn refused"), ⟨"c", "u", "p", "tk1"⟩,
       [⟨"POST", mkURL "Session", .creds "c" "u" "p", none⟩,
        txtDeleteRequest "tk1" "TXTRecord/example.com/f.example.com/"]) ∧
    CleanUp ctx2n ⟨"c", "u", "p", ""⟩ "example.com" "tok" "key" =
      (.error (.txtDeleteFailed 404), ⟨"c", "u", "p", "tk1"⟩,
       [⟨"POST", mkURL "Session", .creds "c" "u" "p", none⟩,
        txtDeleteRequest "tk1" "TXTRecord/example.com/f.example.com/"]) :=
  ⟨(C2_mutation_failure_stops ctx2 ⟨"c", "u", "p", ""⟩ "example.com" "tok" "key"
      "f.example.com" "val" 60 "example.com" ⟨"c", "u", "p", "tk1"⟩
      [⟨"POST", mkURL "Session", .creds "c" "u" "p", none⟩] rfl rfl rfl).1
      (.apiFailure "bad")
      [⟨"POST", mkURL "TXTRecord/example.com/f.example.com/", .txtRecord "val" "60", some "tk1"⟩]
      rfl,
   (C2_mutation_failure_stops ctx2t ⟨"c", "u", "p", ""⟩ "example.com" "tok" "key"
      "f.example.com" "val" 60 "example.com" ⟨"c", "u", "p", "tk1"⟩
      [⟨"POST", mkURL "Session", .creds "c" "u" "p", none⟩] rfl rfl rfl).2.1
      "conn refused" rfl,
   (C2_mutation_failure_stops ctx2n ⟨"c", "u", "p", ""⟩ "example.com" "tok" "key"
      "f.example.com" "val" 60 "example.com" ⟨"c", "u", "p", "tk1"⟩
      [⟨"POST", mkURL "Session", .creds "c" "u" "p", none⟩] rfl rfl rfl).2.2
      404 .invalid rfl (by decide)⟩

end Dyn
